import Mathlib

/-!
Shallow embedding of the connection-management and query-execution layer of
the repository (file `src/db.py`): the `get_connection` endpoint resolver,
the `SparkSession` retry loop (`SparkSession.sql`), the `close` lifecycle,
and the catalog enumerators (`list_catalogs`, `list_schemas`,
`list_tables_in_schema`, `list_all_tables`, `_list_all_tables_recursive`).

The remote engine and the `databricks.sql` connector are modelled as
oracles (function parameters): which connect attempts raise, which query
attempts fail, and what tabular data each metadata query returns.
-/

namespace Supabricks

/-- Result table, mirroring the pandas DataFrame the code builds from
`cursor.description` (column names) and `cursor.fetchall()` (rows).
Each row is a list of scalar values aligned with `columns`. -/
structure DataFrame where
  columns : List String
  rows : List (List String)
deriving Repr, DecidableEq

/-- The `pd.DataFrame()` the code returns on exhausted retries: zero
columns, zero rows. -/
def DataFrame.emptyDF : DataFrame := ⟨[], []⟩

/-- The pandas `df.empty` property: true when either axis has length 0. -/
def DataFrame.empty (df : DataFrame) : Bool :=
  df.rows.isEmpty || df.columns.isEmpty

/-- Whether a column name occurs in `df.columns`, as in `"c" in df.columns`. -/
def DataFrame.hasCol (df : DataFrame) (c : String) : Bool :=
  df.columns.contains c

/-- The value a row holds for column `c` (the `row[c]` access on an
iterrows row). Out-of-range access is totalised with `""`; the code only
reads columns it has checked for. -/
def DataFrame.cell (df : DataFrame) (r : List String) (c : String) : String :=
  match df.columns.findIdx? (· == c) with
  | some i => r.getD i ""
  | none => ""

/-- The values of column `c` in row order: `[row[c] for _, row in df.iterrows()]`. -/
def DataFrame.colValues (df : DataFrame) (c : String) : List String :=
  df.rows.map (fun r => df.cell r c)

/-! ### The retry loop of `SparkSession.sql` (src/db.py lines 83-120)

One loop iteration is one attempt: ensure a connection, submit the query,
fetch the result. Any exception anywhere in the attempt (connection
failure included) lands in the `except` branch. The oracle `o` gives the
outcome of attempt number `r` (0-indexed). -/

/-- Outcome of one attempt of the body of the retry loop. -/
inductive Attempt where
  | fail
  | success (df : DataFrame)
deriving Repr, DecidableEq

/-- Observable trace of one `SparkSession.sql` call: the backoff sleeps
performed in order (seconds), the number of attempts made, and the value
returned (`none` models the implicit Python `None` when the loop body
never runs). -/
structure SqlTrace where
  sleeps : List Nat
  attemptsMade : Nat
  result : Option DataFrame
deriving Repr, DecidableEq

/-- The `while retries < max_retries` loop of `SparkSession.sql`, entered
with counter `r` (the code starts it at 0). On an exception the counter
is incremented, the connection is torn down, and if attempts remain the
loop sleeps `2 ^ retries` seconds; when retries are exhausted it returns
the empty DataFrame. `max_retries` is an integer, as in Python. -/
def sqlLoop (o : Nat → Attempt) (max_retries : Int) (r : Nat) : SqlTrace :=
  if _h0 : (r : Int) < max_retries then
    match o r with
    | .success df => ⟨[], 1, some df⟩
    | .fail =>
      if _h1 : ((r + 1 : Nat) : Int) < max_retries then
        let rest := sqlLoop o max_retries (r + 1)
        ⟨2 ^ (r + 1) :: rest.sleeps, rest.attemptsMade + 1, rest.result⟩
      else
        ⟨[], 1, some DataFrame.emptyDF⟩
  else ⟨[], 0, none⟩
termination_by (max_retries - r).toNat
decreasing_by omega

/-- The session method `sql(query, max_retries)`: run the loop from
`retries = 0`. The query text does not influence the control flow. -/
def SparkSession.sql (o : Nat → Attempt) (max_retries : Int) : SqlTrace :=
  sqlLoop o max_retries 0

theorem sqlLoop_of_not_lt (o : Nat → Attempt) (m : Int) (r : Nat)
    (h : ¬ (r : Int) < m) : sqlLoop o m r = ⟨[], 0, none⟩ := by
  rw [sqlLoop]
  simp [h]

theorem sqlLoop_success (o : Nat → Attempt) (m : Int) (r : Nat) (df : DataFrame)
    (h : (r : Int) < m) (hs : o r = .success df) :
    sqlLoop o m r = ⟨[], 1, some df⟩ := by
  rw [sqlLoop]
  simp [h, hs]

theorem sqlLoop_fail_retry (o : Nat → Attempt) (m : Int) (r : Nat)
    (h : (r : Int) < m) (hf : o r = .fail) (h2 : ((r + 1 : Nat) : Int) < m) :
    sqlLoop o m r =
      ⟨2 ^ (r + 1) :: (sqlLoop o m (r + 1)).sleeps,
       (sqlLoop o m (r + 1)).attemptsMade + 1,
       (sqlLoop o m (r + 1)).result⟩ := by
  rw [sqlLoop]
  simp [h, hf, h2]
  omega

theorem sqlLoop_fail_exhaust (o : Nat → Attempt) (m : Int) (r : Nat)
    (h : (r : Int) < m) (hf : o r = .fail) (h2 : ¬ ((r + 1 : Nat) : Int) < m) :
    sqlLoop o m r = ⟨[], 1, some DataFrame.emptyDF⟩ := by
  rw [sqlLoop]
  simp [h, hf, h2]
  omega

/-! ### The endpoint resolver `get_connection` (src/db.py lines 20-69)

The code tries three `http_path` formats in a fixed order and returns the
first connection that `sql.connect` opens; after three raises it returns
`None`. The connector is an oracle from the `http_path` string to either a
connection or a raise; hostname and token are fixed per call. -/

/-- Left-to-right, non-overlapping replacement of a pattern in a
character list, the semantics of Python `str.replace` for a non-empty
pattern. The fuel argument (instantiated with the length of the list)
only makes the recursion structural; each step consumes at least one
character. -/
def replaceFuel (pat rep : List Char) : Nat → List Char → List Char
  | _, [] => []
  | 0, s => s
  | Nat.succ fuel, c :: cs =>
    if pat ≠ [] && pat.isPrefixOf (c :: cs) then
      rep ++ replaceFuel pat rep fuel ((c :: cs).drop pat.length)
    else c :: replaceFuel pat rep fuel cs

/-- Python `s.replace(pat, rep)` for the non-empty patterns the code
uses (`"https://"` and `"adb-"`); an empty pattern is returned unchanged. -/
def pyReplace (s pat rep : String) : String :=
  if pat.data.isEmpty then s
  else ⟨replaceFuel pat.data rep.data s.data.length s.data⟩

/-- Python `s.split(sep)` for a single-character separator: splits on
every occurrence, keeping empty segments, and yields one segment for a
string without the separator (`"".split(".") == [""]`). -/
def splitChar (sep : Char) : List Char → List (List Char)
  | [] => [[]]
  | c :: cs =>
    if c = sep then [] :: splitChar sep cs
    else
      match splitChar sep cs with
      | [] => [[c]]
      | w :: ws => (c :: w) :: ws

/-- Python `s.startswith(pre)`. -/
def pyStartsWith (s pre : String) : Bool :=
  pre.data.isPrefixOf s.data

/-- Hostname as computed by the code: `DATABRICKS_HOST.replace("https://", "")`. -/
def hostnameOf (host : String) : String :=
  pyReplace host "https://" ""

/-- Workspace id derived from the hostname: first dot-segment with the
`adb-` marker removed, as in `hostname.split(".")[0].replace("adb-", "")`. -/
def workspaceIdOf (host : String) : String :=
  pyReplace ⟨(splitChar '.' (hostnameOf host).data).headD []⟩ "adb-" ""

/-- First strategy path: `/sql/1.0/warehouses/{DATABRICKS_WAREHOUSE_ID or "0"}`. -/
def warehousePath (warehouse_id : Option String) : String :=
  "/sql/1.0/warehouses/" ++ warehouse_id.getD "0"

/-- Second strategy path: `/sql/protocolv1/o/{workspace_id}/{DATABRICKS_CLUSTER_ID or "0"}`. -/
def protocolPath (host : String) (cluster_id : Option String) : String :=
  "/sql/protocolv1/o/" ++ workspaceIdOf host ++ "/" ++ cluster_id.getD "0"

/-- Third strategy path: `/sql/1.0/endpoints/{DATABRICKS_ENDPOINT_ID or "0"}`. -/
def endpointPath (endpoint_id : Option String) : String :=
  "/sql/1.0/endpoints/" ++ endpoint_id.getD "0"

/-- The three endpoint-strategy paths in the order the code tries them. -/
def connectionPaths (host : String)
    (warehouse_id cluster_id endpoint_id : Option String) : List String :=
  [warehousePath warehouse_id, protocolPath host cluster_id,
   endpointPath endpoint_id]

/-- The resolver `get_connection`, instrumented with the list of
`http_path` values attempted, in order. `connect p = .error ()` models
`sql.connect` raising for path `p`; `.ok c` models it returning
connection `c`. The nested try/except blocks of the code give: return on
the first success, `none` after the third raise. -/
def get_connection {Conn : Type} (connect : String → Except Unit Conn)
    (host : String) (warehouse_id cluster_id endpoint_id : Option String) :
    List String × Option Conn :=
  let p1 := warehousePath warehouse_id
  match connect p1 with
  | .ok c => ([p1], some c)
  | .error _ =>
    let p2 := protocolPath host cluster_id
    match connect p2 with
    | .ok c => ([p1, p2], some c)
    | .error _ =>
      let p3 := endpointPath endpoint_id
      match connect p3 with
      | .ok c => ([p1, p2, p3], some c)
      | .error _ => ([p1, p2, p3], none)

/-- Modelled from the spec: the resolver contract in the words of the
specification — try the strategy paths in order, return the first
connection that opens, attempt nothing after a success, and signal total
failure when every attempt raises. Compared against `get_connection`. -/
def resolveFirstSuccess {Conn : Type} (connect : String → Except Unit Conn) :
    List String → List String × Option Conn
  | [] => ([], none)
  | p :: ps =>
    match connect p with
    | .ok c => ([p], some c)
    | .error _ =>
      let rest := resolveFirstSuccess connect ps
      (p :: rest.1, rest.2)

/-! ### The session lifecycle `close` (src/db.py lines 122-141)

`_close_connection` closes the cursor and the connection inside
try/except blocks that swallow every close-time exception, then resets
both references to `None`; `close` simply delegates to it. The booleans
say whether the underlying handle close raises. -/

/-- Session state: the `connection` and `cursor` attributes. -/
structure Session (Conn Cur : Type) where
  connection : Option Conn
  cursor : Option Cur
deriving Repr, DecidableEq

/-- A close call on an underlying handle, which may raise. -/
def closeHandle {α : Type} (raises : Bool) (_h : α) : Except Unit Unit :=
  if raises then .error () else .ok ()

/-- The `_close_connection` method: best-effort close of cursor then
connection (each inside try/except, result discarded), then both
references reset to `None`. Totality of this function is the no-raise
guarantee: exceptions of the handle closes are swallowed by `toOption`. -/
def close_connection {Conn Cur : Type} (s : Session Conn Cur)
    (cursorRaises connRaises : Bool) : Session Conn Cur :=
  let _swallowedCursor : Option Unit :=
    match s.cursor with
    | some c => (closeHandle cursorRaises c).toOption
    | none => some ()
  let _swallowedConn : Option Unit :=
    match s.connection with
    | some c => (closeHandle connRaises c).toOption
    | none => some ()
  { connection := none, cursor := none }

/-- The public `close` method: delegates to `_close_connection`. -/
def Session.close {Conn Cur : Type} (s : Session Conn Cur)
    (cursorRaises connRaises : Bool) : Session Conn Cur :=
  close_connection s cursorRaises connRaises

/-! ### The catalog enumerators (src/db.py lines 164-293)

The enumerators call `spark.sql`, which with its default retries never
raises and always hands back a DataFrame (empty on failure). The engine
oracle supplies the DataFrame each metadata query produces; for the
`information_schema.tables` query of `list_all_tables` the oracle
supplies the underlying table rows and the embedding evaluates the SQL
text of the query (filter and concat) over them, with `none` modelling a
query that failed through all retries (so `spark.sql` returned the empty
DataFrame). -/

/-- Table descriptor dictionary built by the enumerators:
`{name, full_name, catalog, schema}`. -/
structure TableDesc where
  name : String
  full_name : String
  catalog : String
  schema : String
deriving Repr, DecidableEq

/-- One row of the remote `information_schema.tables` relation. -/
structure InfoRow where
  table_catalog : String
  table_schema : String
  table_name : String
  table_type : String
deriving Repr, DecidableEq

/-- The remote engine as the enumerators observe it through `spark.sql`. -/
structure Engine where
  /-- Rows of `information_schema.tables`; `none` models the bulk
  metadata query failing (empty DataFrame after retries). -/
  infoTables : Option (List InfoRow)
  /-- Result of `SHOW CATALOGS`. -/
  showCatalogs : DataFrame
  /-- Result of `SHOW SCHEMAS IN {catalog}`. -/
  showSchemas : String → DataFrame
  /-- Result of `SHOW TABLES IN {catalog}.{schema}`. -/
  showTables : String → String → DataFrame

/-- The row comprehension `[row[c] for _, row in df.iterrows()]`: raises
(`.error`) when the column is absent and at least one row is iterated. -/
def rowsCol (df : DataFrame) (c : String) : Except Unit (List String) :=
  if df.hasCol c then .ok (df.colValues c)
  else if df.rows.isEmpty then .ok []
  else .error ()

/-- `list_catalogs`: read column `catalog` of `SHOW CATALOGS`; any
exception is caught and yields `[]`. -/
def list_catalogs (e : Engine) : List String :=
  match rowsCol e.showCatalogs "catalog" with
  | .ok l => l
  | .error _ => []

/-- `list_schemas(catalog)`: probe the result of
`SHOW SCHEMAS IN {catalog}` for column `namespace`, then `schema`, then
`databaseName`, returning that column in row order; none present yields `[]`. -/
def list_schemas (e : Engine) (catalog : String) : List String :=
  let df := e.showSchemas catalog
  if df.hasCol "namespace" then df.colValues "namespace"
  else if df.hasCol "schema" then df.colValues "schema"
  else if df.hasCol "databaseName" then df.colValues "databaseName"
  else []

/-- `list_tables_in_schema(catalog, schema)`: probe the result of
`SHOW TABLES IN {catalog}.{schema}` for column `tableName`, then `name`;
build a descriptor per row with `full_name = catalog.schema.name`. -/
def list_tables_in_schema (e : Engine) (catalog schema : String) :
    List TableDesc :=
  let df := e.showTables catalog schema
  let col? : Option String :=
    if df.hasCol "tableName" then some "tableName"
    else if df.hasCol "name" then some "name"
    else none
  match col? with
  | none => []
  | some col =>
    (df.colValues col).map (fun n =>
      { name := n,
        full_name := catalog ++ "." ++ schema ++ "." ++ n,
        catalog := catalog,
        schema := schema })

/-- The system-namespace exclusion rule used both by the WHERE clause of
the bulk query and by the recursive fallback: name starts with `sys` or
equals `information_schema` or `system`. -/
def isSystemName (s : String) : Bool :=
  pyStartsWith s "sys" || s == "information_schema" || s == "system"

/-- The WHERE clause of the bulk metadata query:
`table_type = 'BASE TABLE' AND table_catalog NOT LIKE 'sys%' AND
table_catalog NOT IN ('information_schema', 'system')`. -/
def primaryPred (r : InfoRow) : Bool :=
  r.table_type == "BASE TABLE" && !(pyStartsWith r.table_catalog "sys")
    && !(r.table_catalog == "information_schema" || r.table_catalog == "system")

/-- Evaluation of the SELECT of `list_all_tables` over the
`information_schema.tables` rows: filter by `primaryPred`, project
`catalog`, `schema`, `name` and the concatenated `full_name`. -/
def evalPrimaryQuery (rows : List InfoRow) : DataFrame :=
  { columns := ["catalog", "schema", "name", "full_name"],
    rows := (rows.filter primaryPred).map (fun r =>
      [r.table_catalog, r.table_schema, r.table_name,
       r.table_catalog ++ "." ++ r.table_schema ++ "." ++ r.table_name]) }

/-- The DataFrame `spark.sql(query)` hands back for the bulk metadata
query: the evaluated query, or the empty DataFrame when the query failed
through all retries. -/
def primaryDF (e : Engine) : DataFrame :=
  match e.infoTables with
  | none => DataFrame.emptyDF
  | some rows => evalPrimaryQuery rows

/-- `df.to_dict(orient="records")` on the bulk-query DataFrame, read back
as table descriptors through its column names. -/
def dfRecords (df : DataFrame) : List TableDesc :=
  df.rows.map (fun r =>
    { name := df.cell r "name",
      full_name := df.cell r "full_name",
      catalog := df.cell r "catalog",
      schema := df.cell r "schema" })

/-- `_list_all_tables_recursive(exclude_system)`: enumerate catalogs,
skip system catalogs when excluding, enumerate schemas per catalog, skip
system schemas, enumerate tables per schema and concatenate in traversal
order. -/
def list_all_tables_recursive (e : Engine) (exclude_system : Bool) :
    List TableDesc :=
  ((list_catalogs e).filter (fun c => !(exclude_system && isSystemName c))).flatMap
    (fun c =>
      ((list_schemas e c).filter (fun s => !(exclude_system && isSystemName s))).flatMap
        (fun s => list_tables_in_schema e c s))

/-- `list_all_tables`: run the bulk `information_schema` query; if the
resulting DataFrame is empty (zero rows, or the query failed), fall back
to `_list_all_tables_recursive(exclude_system=True)`; otherwise return
the records of the DataFrame. -/
def list_all_tables (e : Engine) : List TableDesc :=
  let df := primaryDF e
  if df.empty then list_all_tables_recursive e true
  else dfRecords df

/-- Contribution of one kept catalog to the recursive traversal: the
tables of its kept schemas in order. -/
def catalogContrib (e : Engine) (c : String) : List TableDesc :=
  ((list_schemas e c).filter (fun s => !(isSystemName s))).flatMap
    (fun s => list_tables_in_schema e c s)

/-! ### Helper lemmas about the retry loop -/

theorem sqlLoop_sleep_duration (o : Nat → Attempt) (m : Int) :
    ∀ (i r d : Nat), (sqlLoop o m r).sleeps[i]? = some d →
      d = 2 ^ (r + i + 1) := by
  intro i
  induction i with
  | zero =>
    intro r d hd
    by_cases h0 : (r : Int) < m
    · cases ho : o r with
      | success df =>
        rw [sqlLoop_success o m r df h0 ho] at hd
        simp at hd
      | fail =>
        by_cases h1 : ((r + 1 : Nat) : Int) < m
        · rw [sqlLoop_fail_retry o m r h0 ho h1] at hd
          simp at hd
          simp only [Nat.add_zero]
          omega
        · rw [sqlLoop_fail_exhaust o m r h0 ho h1] at hd
          simp at hd
    · rw [sqlLoop_of_not_lt o m r h0] at hd
      simp at hd
  | succ i ih =>
    intro r d hd
    by_cases h0 : (r : Int) < m
    · cases ho : o r with
      | success df =>
        rw [sqlLoop_success o m r df h0 ho] at hd
        simp at hd
      | fail =>
        by_cases h1 : ((r + 1 : Nat) : Int) < m
        · rw [sqlLoop_fail_retry o m r h0 ho h1] at hd
          simp only [List.getElem?_cons_succ] at hd
          have he : r + 1 + i + 1 = r + (i + 1) + 1 := by omega
          rw [ih (r + 1) d hd, he]
        · rw [sqlLoop_fail_exhaust o m r h0 ho h1] at hd
          simp at hd
    · rw [sqlLoop_of_not_lt o m r h0] at hd
      simp at hd

theorem sqlLoop_all_fail (o : Nat → Attempt) (m : Int)
    (hfail : ∀ i : Nat, (i : Int) < m → o i = .fail) :
    ∀ (k r : Nat), (m - r).toNat = k → (r : Int) < m →
      (sqlLoop o m r).result = some DataFrame.emptyDF := by
  intro k
  induction k with
  | zero =>
    intro r hk hr
    omega
  | succ k ih =>
    intro r hk hr
    have hf := hfail r hr
    by_cases h1 : ((r + 1 : Nat) : Int) < m
    · rw [sqlLoop_fail_retry o m r hr hf h1]
      exact ih (r + 1) (by omega) h1
    · rw [sqlLoop_fail_exhaust o m r hr hf h1]

/-! ### Claim theorems for the retry loop -/

/-- C1: with `max_retries = 3`, when the first three attempts fail (and a
fourth would succeed), the call returns the empty DataFrame after the
third failure with exactly 3 attempts made and no further attempt,
having slept 2 s and 4 s after the first and second failures; and in
general every sleep performed after failed attempt number `i + 1` lasts
`2 ^ (i + 1)` seconds (2 s, 4 s, 8 s, ...). -/
theorem c1_sql_backoff (o : Nat → Attempt) (df : DataFrame)
    (h0 : o 0 = .fail) (h1 : o 1 = .fail) (h2 : o 2 = .fail)
    (_h3 : o 3 = .success df) :
    SparkSession.sql o 3 = ⟨[2, 4], 3, some DataFrame.emptyDF⟩ ∧
      (∀ (p : Nat → Attempt) (m : Int) (i d : Nat),
        (SparkSession.sql p m).sleeps[i]? = some d → d = 2 ^ (i + 1)) := by
  constructor
  · show sqlLoop o 3 0 = _
    rw [sqlLoop_fail_retry o 3 0 (by norm_num) h0 (by norm_num),
        sqlLoop_fail_retry o 3 1 (by norm_num) h1 (by norm_num),
        sqlLoop_fail_exhaust o 3 2 (by norm_num) h2 (by norm_num)]
    norm_num
  · intro p m i d hd
    have := sqlLoop_sleep_duration p m i 0 d hd
    simpa using this

/-- C2: when every attempt the loop can make fails, `SparkSession.sql`
returns (rather than raising) the empty Result Table: zero columns and
zero rows. -/
theorem c2_sql_exhausted_returns_empty (o : Nat → Attempt) (m : Int)
    (hm : 0 < m) (hfail : ∀ i : Nat, (i : Int) < m → o i = .fail) :
    (SparkSession.sql o m).result = some DataFrame.emptyDF ∧
      DataFrame.emptyDF.columns = [] ∧ DataFrame.emptyDF.rows = [] := by
  refine ⟨?_, rfl, rfl⟩
  exact sqlLoop_all_fail o m hfail (m - ((0 : Nat) : Int)).toNat 0 rfl
    (by exact_mod_cast hm)

/-- C10: with `max_retries ≤ 0` the `while retries < max_retries` loop
body never runs: no attempt is made (so nothing is connected or
submitted) and the function falls through, returning Python `None`. -/
theorem c10_sql_nonpositive_retries (o : Nat → Attempt) (m : Int)
    (hm : m ≤ 0) : SparkSession.sql o m = ⟨[], 0, none⟩ := by
  show sqlLoop o m 0 = _
  exact sqlLoop_of_not_lt o m 0 (by omega)

/-- Witness for C1: an oracle failing on attempts 0, 1, 2 and succeeding
on attempt 3, at `max_retries = 3`. -/
theorem c1_sql_backoff_witness :
    SparkSession.sql
      (fun i => if i ≤ 2 then Attempt.fail
                else Attempt.success ⟨["x"], [["1"]]⟩) 3 =
      ⟨[2, 4], 3, some DataFrame.emptyDF⟩ :=
  (c1_sql_backoff
    (fun i => if i ≤ 2 then Attempt.fail
              else Attempt.success ⟨["x"], [["1"]]⟩)
    ⟨["x"], [["1"]]⟩ rfl rfl rfl rfl).1

/-- Witness for C2: every attempt fails at `max_retries = 1`. -/
theorem c2_sql_exhausted_returns_empty_witness :
    (SparkSession.sql (fun _ => Attempt.fail) 1).result =
      some DataFrame.emptyDF :=
  (c2_sql_exhausted_returns_empty (fun _ => Attempt.fail) 1 (by norm_num)
    (fun _ _ => rfl)).1

/-- Witness for C10: `max_retries = -1` makes no attempt and returns
`None`. -/
theorem c10_sql_nonpositive_retries_witness :
    SparkSession.sql (fun _ => Attempt.fail) (-1) = ⟨[], 0, none⟩ :=
  c10_sql_nonpositive_retries (fun _ => Attempt.fail) (-1) (by norm_num)

/-- C3: `get_connection` refines the first-success contract over the
fixed strategy order warehouse-path, protocol-path, endpoint-path; in
particular when the first two connects raise and the endpoint-path
connect succeeds, the endpoint-path connection is returned with all
three paths attempted in order; and the resolver returns no connection
exactly when all three attempts raise. -/
theorem c3_get_connection_strategy_order {Conn : Type}
    (connect : String → Except Unit Conn) (host : String)
    (warehouse_id cluster_id endpoint_id : Option String) :
    get_connection connect host warehouse_id cluster_id endpoint_id =
        resolveFirstSuccess connect
          (connectionPaths host warehouse_id cluster_id endpoint_id) ∧
      (∀ c : Conn,
        connect (warehousePath warehouse_id) = .error () →
        connect (protocolPath host cluster_id) = .error () →
        connect (endpointPath endpoint_id) = .ok c →
        get_connection connect host warehouse_id cluster_id endpoint_id =
          ([warehousePath warehouse_id, protocolPath host cluster_id,
            endpointPath endpoint_id], some c)) ∧
      ((get_connection connect host warehouse_id cluster_id endpoint_id).2 =
          none ↔
        ∀ p ∈ connectionPaths host warehouse_id cluster_id endpoint_id,
          connect p = .error ()) := by
  unfold get_connection connectionPaths
  cases h1 : connect (warehousePath warehouse_id) <;>
    cases h2 : connect (protocolPath host cluster_id) <;>
      cases h3 : connect (endpointPath endpoint_id) <;>
        simp_all [resolveFirstSuccess]

/-- Witness for C3: a connector that raises on the warehouse and
protocol paths and opens connection `7` on the endpoint path. -/
theorem c3_get_connection_strategy_order_witness :
    get_connection
      (fun p => if p = "/sql/1.0/endpoints/0" then Except.ok (7 : Nat)
                else Except.error ()) "h" none none none =
      (["/sql/1.0/warehouses/0", "/sql/protocolv1/o/h/0",
        "/sql/1.0/endpoints/0"], some 7) :=
  (c3_get_connection_strategy_order
    (fun p => if p = "/sql/1.0/endpoints/0" then Except.ok (7 : Nat)
              else Except.error ()) "h" none none none).2.1 7 rfl rfl rfl

/-- C7: after `close()` both internal references are `None`; the call
never raises (it is a total function even when an underlying handle
close raises), calling it again is a no-op, and it is safe on a session
that was never connected. -/
theorem c7_close_resets_and_idempotent {Conn Cur : Type}
    (s : Session Conn Cur) (b1 b2 b3 b4 : Bool) :
    (Session.close s b1 b2).connection = none ∧
      (Session.close s b1 b2).cursor = none ∧
      Session.close (Session.close s b1 b2) b3 b4 = Session.close s b1 b2 ∧
      Session.close (⟨none, none⟩ : Session Conn Cur) b1 b2 =
        ⟨none, none⟩ :=
  ⟨rfl, rfl, rfl, rfl⟩

/-- C6: `list_schemas` returns, in row order, the values of the first
column present among `namespace`, `schema`, `databaseName` in the result
of the schema query, and the empty sequence when none of the three is
present. -/
theorem c6_list_schemas_column_probe (e : Engine) (catalog : String) :
    ((e.showSchemas catalog).hasCol "namespace" = true →
      list_schemas e catalog = (e.showSchemas catalog).colValues "namespace") ∧
      ((e.showSchemas catalog).hasCol "namespace" = false →
        (e.showSchemas catalog).hasCol "schema" = true →
        list_schemas e catalog = (e.showSchemas catalog).colValues "schema") ∧
      ((e.showSchemas catalog).hasCol "namespace" = false →
        (e.showSchemas catalog).hasCol "schema" = false →
        (e.showSchemas catalog).hasCol "databaseName" = true →
        list_schemas e catalog =
          (e.showSchemas catalog).colValues "databaseName") ∧
      ((e.showSchemas catalog).hasCol "namespace" = false →
        (e.showSchemas catalog).hasCol "schema" = false →
        (e.showSchemas catalog).hasCol "databaseName" = false →
        list_schemas e catalog = []) := by
  refine ⟨fun h1 => ?_, fun h1 h2 => ?_, fun h1 h2 h3 => ?_,
    fun h1 h2 h3 => ?_⟩ <;>
    simp [list_schemas, h1]
  · simp [h2]
  · simp [h2, h3]
  · simp [h2, h3]

/-- Witness for C6: a schema query result carrying the `schema` column
variant. -/
theorem c6_list_schemas_column_probe_witness :
    list_schemas
      { infoTables := none, showCatalogs := ⟨[], []⟩,
        showSchemas := fun _ => ⟨["schema"], [["s1"], ["s2"]]⟩,
        showTables := fun _ _ => ⟨[], []⟩ } "c" =
      (DataFrame.mk ["schema"] [["s1"], ["s2"]]).colValues "schema" :=
  (c6_list_schemas_column_probe
    { infoTables := none, showCatalogs := ⟨[], []⟩,
      showSchemas := fun _ => ⟨["schema"], [["s1"], ["s2"]]⟩,
      showTables := fun _ _ => ⟨[], []⟩ } "c").2.1 rfl rfl

/-! ### Helper lemmas about the enumerators -/

theorem mem_list_tables_in_schema (e : Engine) (c s : String) (t : TableDesc)
    (ht : t ∈ list_tables_in_schema e c s) :
    t.catalog = c ∧ t.schema = s ∧
      t.full_name = c ++ "." ++ s ++ "." ++ t.name := by
  unfold list_tables_in_schema at ht
  by_cases h1 : (e.showTables c s).hasCol "tableName"
  · simp only [h1, if_true] at ht
    simp only [List.mem_map] at ht
    obtain ⟨n, _, rfl⟩ := ht
    exact ⟨rfl, rfl, rfl⟩
  · by_cases h2 : (e.showTables c s).hasCol "name"
    · simp only [h1, h2, if_false, if_true, Bool.false_eq_true] at ht
      simp only [List.mem_map] at ht
      obtain ⟨n, _, rfl⟩ := ht
      exact ⟨rfl, rfl, rfl⟩
    · simp [h1, h2] at ht

theorem mem_list_all_tables_recursive (e : Engine) (t : TableDesc)
    (ht : t ∈ list_all_tables_recursive e true) :
    ∃ c s, isSystemName c = false ∧ isSystemName s = false ∧
      t ∈ list_tables_in_schema e c s := by
  unfold list_all_tables_recursive at ht
  simp only [List.mem_flatMap, List.mem_filter, Bool.true_and,
    Bool.not_eq_eq_eq_not, Bool.not_true] at ht
  obtain ⟨c, ⟨_, hc⟩, s, ⟨_, hs⟩, ht⟩ := ht
  exact ⟨c, s, hc, hs, ht⟩

theorem primaryPred_catalog (r : InfoRow) (h : primaryPred r = true) :
    pyStartsWith r.table_catalog "sys" = false ∧
      r.table_catalog ≠ "information_schema" ∧
      r.table_catalog ≠ "system" := by
  simp only [primaryPred, Bool.and_eq_true, Bool.not_eq_true',
    Bool.or_eq_false_iff, beq_eq_false_iff_ne, ne_eq] at h
  exact ⟨h.1.2, h.2.1, h.2.2⟩

theorem mem_dfRecords_primary (rows : List InfoRow) (t : TableDesc)
    (ht : t ∈ dfRecords (evalPrimaryQuery rows)) :
    ∃ r, r ∈ rows ∧ primaryPred r = true ∧
      t.catalog = r.table_catalog ∧ t.schema = r.table_schema ∧
      t.name = r.table_name ∧
      t.full_name =
        r.table_catalog ++ "." ++ r.table_schema ++ "." ++ r.table_name := by
  unfold dfRecords evalPrimaryQuery at ht
  simp only [List.map_map, List.mem_map, List.mem_filter,
    Function.comp] at ht
  obtain ⟨r, ⟨hr, hp⟩, rfl⟩ := ht
  exact ⟨r, hr, hp, rfl, rfl, rfl, rfl⟩

theorem isSystemName_false (s : String) (h : isSystemName s = false) :
    pyStartsWith s "sys" = false ∧ s ≠ "information_schema" ∧
      s ≠ "system" := by
  simp only [isSystemName, Bool.or_eq_false_iff,
    beq_eq_false_iff_ne, ne_eq] at h
  exact ⟨h.1.1, h.1.2, h.2⟩

/-! ### Claim theorems for the enumerators -/

/-- C4: whenever the bulk `information_schema` query of
`list_all_tables` yields zero rows — in particular when the query failed
and `spark.sql` handed back the empty DataFrame — the function returns
the result of the recursive fallback with system exclusion enabled. -/
theorem c4_fallback_on_empty_primary (e : Engine) :
    ((primaryDF e).rows = [] →
      list_all_tables e = list_all_tables_recursive e true) ∧
      (e.infoTables = none →
        list_all_tables e = list_all_tables_recursive e true) := by
  constructor
  · intro h
    unfold list_all_tables
    simp [DataFrame.empty, h]
  · intro h
    unfold list_all_tables
    simp [primaryDF, h, DataFrame.empty, DataFrame.emptyDF]

/-- Witness for C4: an engine whose bulk metadata query failed. -/
theorem c4_fallback_on_empty_primary_witness :
    list_all_tables
      { infoTables := none,
        showCatalogs := ⟨["catalog"], [["c1"]]⟩,
        showSchemas := fun _ => ⟨["namespace"], [["s1"]]⟩,
        showTables := fun _ _ => ⟨["tableName"], [["t1"]]⟩ } =
      list_all_tables_recursive
        { infoTables := none,
          showCatalogs := ⟨["catalog"], [["c1"]]⟩,
          showSchemas := fun _ => ⟨["namespace"], [["s1"]]⟩,
          showTables := fun _ _ => ⟨["tableName"], [["t1"]]⟩ } true :=
  (c4_fallback_on_empty_primary
    { infoTables := none,
      showCatalogs := ⟨["catalog"], [["c1"]]⟩,
      showSchemas := fun _ => ⟨["namespace"], [["s1"]]⟩,
      showTables := fun _ _ => ⟨["tableName"], [["t1"]]⟩ }).2 rfl

/-- C5: every table descriptor returned by `list_all_tables` — under the
bulk `information_schema` strategy (whose WHERE clause filters the
catalog) as well as under the recursive fallback (which skips system
catalogs) — has a catalog that does not start with `sys` and is neither
`information_schema` nor `system`. -/
theorem c5_no_system_catalog (e : Engine) (t : TableDesc)
    (ht : t ∈ list_all_tables e) :
    pyStartsWith t.catalog "sys" = false ∧
      t.catalog ≠ "information_schema" ∧ t.catalog ≠ "system" := by
  simp only [list_all_tables] at ht
  split at ht
  · obtain ⟨c, s, hc, _, hmem⟩ := mem_list_all_tables_recursive e t ht
    obtain ⟨hcat, _, _⟩ := mem_list_tables_in_schema e c s t hmem
    rw [hcat]
    exact isSystemName_false c hc
  · rename_i hne
    cases hi : e.infoTables with
    | none =>
      exfalso
      apply hne
      simp [primaryDF, hi, DataFrame.empty, DataFrame.emptyDF]
    | some rows =>
      simp only [primaryDF, hi] at ht
      obtain ⟨r, _, hp, hcat, _, _, _⟩ := mem_dfRecords_primary rows t ht
      rw [hcat]
      exact primaryPred_catalog r hp

/-- Witness for C5: an engine whose `information_schema` holds one base
table in a non-system catalog. -/
theorem c5_no_system_catalog_witness :
    pyStartsWith
        (TableDesc.mk "tab" "cat.sch.tab" "cat" "sch").catalog "sys" =
        false ∧
      (TableDesc.mk "tab" "cat.sch.tab" "cat" "sch").catalog ≠
        "information_schema" ∧
      (TableDesc.mk "tab" "cat.sch.tab" "cat" "sch").catalog ≠ "system" :=
  c5_no_system_catalog
    { infoTables := some [⟨"cat", "sch", "tab", "BASE TABLE"⟩],
      showCatalogs := ⟨[], []⟩,
      showSchemas := fun _ => ⟨[], []⟩,
      showTables := fun _ _ => ⟨[], []⟩ }
    ⟨"tab", "cat.sch.tab", "cat", "sch"⟩ (by decide)

/-- C8: every table descriptor produced by `list_tables_in_schema`, by
the recursive fallback, and by `list_all_tables` under either strategy
satisfies `full_name = catalog ++ "." ++ schema ++ "." ++ name`. -/
theorem c8_full_name_invariant (e : Engine) :
    (∀ c s t, t ∈ list_tables_in_schema e c s →
      t.full_name = t.catalog ++ "." ++ t.schema ++ "." ++ t.name) ∧
      (∀ t, t ∈ list_all_tables_recursive e true →
        t.full_name = t.catalog ++ "." ++ t.schema ++ "." ++ t.name) ∧
      (∀ t, t ∈ list_all_tables e →
        t.full_name = t.catalog ++ "." ++ t.schema ++ "." ++ t.name) := by
  refine ⟨?_, ?_, ?_⟩
  · intro c s t ht
    obtain ⟨hc, hs, hf⟩ := mem_list_tables_in_schema e c s t ht
    rw [hf, hc, hs]
  · intro t ht
    obtain ⟨c, s, _, _, hmem⟩ := mem_list_all_tables_recursive e t ht
    obtain ⟨hc, hs, hf⟩ := mem_list_tables_in_schema e c s t hmem
    rw [hf, hc, hs]
  · intro t ht
    simp only [list_all_tables] at ht
    split at ht
    · obtain ⟨c, s, _, _, hmem⟩ := mem_list_all_tables_recursive e t ht
      obtain ⟨hc, hs, hf⟩ := mem_list_tables_in_schema e c s t hmem
      rw [hf, hc, hs]
    · rename_i hne
      cases hi : e.infoTables with
      | none =>
        exfalso
        apply hne
        simp [primaryDF, hi, DataFrame.empty, DataFrame.emptyDF]
      | some rows =>
        simp only [primaryDF, hi] at ht
        obtain ⟨r, _, _, hcat, hsch, hname, hf⟩ :=
          mem_dfRecords_primary rows t ht
        rw [hf, hcat, hsch, hname]

/-- Witness for C8: the descriptor of the single base table of a
one-table engine satisfies the `full_name` invariant. -/
theorem c8_full_name_invariant_witness :
    (TableDesc.mk "tab" "cat.sch.tab" "cat" "sch").full_name =
      (TableDesc.mk "tab" "cat.sch.tab" "cat" "sch").catalog ++ "." ++
        (TableDesc.mk "tab" "cat.sch.tab" "cat" "sch").schema ++ "." ++
        (TableDesc.mk "tab" "cat.sch.tab" "cat" "sch").name :=
  (c8_full_name_invariant
    { infoTables := some [⟨"cat", "sch", "tab", "BASE TABLE"⟩],
      showCatalogs := ⟨[], []⟩,
      showSchemas := fun _ => ⟨[], []⟩,
      showTables := fun _ _ => ⟨[], []⟩ }).2.2
    ⟨"tab", "cat.sch.tab", "cat", "sch"⟩ (by decide)

/-- C9: the recursive fallback decomposes into the concatenation of the
per-catalog contributions of the kept catalogs; a scope whose column
probe fails (a failed or anomalous schema query, or table query)
contributes the empty list for that scope only; and every table of a
kept catalog and kept schema is still in the overall result. -/
theorem c9_recursive_scope_isolation (e : Engine) :
    list_all_tables_recursive e true =
      ((list_catalogs e).filter (fun c => !(isSystemName c))).flatMap
        (catalogContrib e) ∧
      (∀ c, (e.showSchemas c).hasCol "namespace" = false →
        (e.showSchemas c).hasCol "schema" = false →
        (e.showSchemas c).hasCol "databaseName" = false →
        catalogContrib e c = []) ∧
      (∀ c s, (e.showTables c s).hasCol "tableName" = false →
        (e.showTables c s).hasCol "name" = false →
        list_tables_in_schema e c s = []) ∧
      (∀ c s t, c ∈ list_catalogs e → isSystemName c = false →
        s ∈ list_schemas e c → isSystemName s = false →
        t ∈ list_tables_in_schema e c s →
        t ∈ list_all_tables_recursive e true) := by
  refine ⟨?_, ?_, ?_, ?_⟩
  · unfold list_all_tables_recursive catalogContrib
    simp
  · intro c h1 h2 h3
    unfold catalogContrib
    simp [list_schemas, h1, h2, h3]
  · intro c s h1 h2
    unfold list_tables_in_schema
    simp [h1, h2]
  · intro c s t hc hcs hs hss ht
    unfold list_all_tables_recursive
    simp only [List.mem_flatMap, List.mem_filter, Bool.true_and,
      Bool.not_eq_eq_eq_not, Bool.not_true]
    exact ⟨c, ⟨hc, hcs⟩, s, ⟨hs, hss⟩, ht⟩

/-- Witness for C9: two catalogs, one whose schema query comes back with
an unrecognised column (its scope yields nothing), the other with a
table that the traversal still returns. -/
theorem c9_recursive_scope_isolation_witness :
    catalogContrib
        { infoTables := none,
          showCatalogs := ⟨["catalog"], [["bad"], ["good"]]⟩,
          showSchemas := fun c =>
            if c = "good" then ⟨["namespace"], [["s"]]⟩
            else ⟨["wrong"], [["x"]]⟩,
          showTables := fun _ _ => ⟨["tableName"], [["t"]]⟩ } "bad" = [] ∧
      (TableDesc.mk "t" "good.s.t" "good" "s") ∈
        list_all_tables_recursive
          { infoTables := none,
            showCatalogs := ⟨["catalog"], [["bad"], ["good"]]⟩,
            showSchemas := fun c =>
              if c = "good" then ⟨["namespace"], [["s"]]⟩
              else ⟨["wrong"], [["x"]]⟩,
            showTables := fun _ _ => ⟨["tableName"], [["t"]]⟩ } true :=
  ⟨(c9_recursive_scope_isolation
      { infoTables := none,
        showCatalogs := ⟨["catalog"], [["bad"], ["good"]]⟩,
        showSchemas := fun c =>
          if c = "good" then ⟨["namespace"], [["s"]]⟩
          else ⟨["wrong"], [["x"]]⟩,
        showTables := fun _ _ => ⟨["tableName"], [["t"]]⟩ }).2.1 "bad"
      (by decide) (by decide) (by decide),
    (c9_recursive_scope_isolation
      { infoTables := none,
        showCatalogs := ⟨["catalog"], [["bad"], ["good"]]⟩,
        showSchemas := fun c =>
          if c = "good" then ⟨["namespace"], [["s"]]⟩
          else ⟨["wrong"], [["x"]]⟩,
        showTables := fun _ _ => ⟨["tableName"], [["t"]]⟩ }).2.2.2 "good"
      "s" ⟨"t", "good.s.t", "good", "s"⟩ (by decide) (by decide)
      (by decide) (by decide) (by decide)⟩

end Supabricks
